import Mathlib

/-!
Verification of the DETorrent migration core against its design document.

Shallow embedding of the Python sources:
  * `src/core/iso_manager.py`   — ISO validation, mount table, cleanup
  * `src/core/nexus_engine.py`  — staged migration pipeline
  * `src/core/os_detector.py`   — image classification by signature sets
  * `src/core/backup_manager.py`— archive creation / restore

Effectful pieces (external tool invocations, the filesystem) are modelled
by explicit parameters: each external command's exit status, and the
relevant filesystem facts (a file's byte contents, the set of file names
in a mounted tree), are inputs to the Lean functions, and the functions
return the structured results plus the state the Python objects hold.
-/

namespace DETorrent

/-! ## IsoManager: ISO validation

`IsoManager.validate_iso_file` (src/core/iso_manager.py:63-78) and
`IsoManager._verify_iso_structure` (src/core/iso_manager.py:80-95).
A candidate file is modelled by whether it exists and its byte contents
(`bytes : List Nat`, one entry per byte); `os.path.getsize` is the length
of that list and `f.read 2048` its first 2048 bytes. -/

structure ValidationResult where
  valid : Bool
  error : Option String
  size : Option Nat
deriving DecidableEq, Repr

/-- The five bytes of the ASCII string `CD001`. -/
def cd001 : List Nat := [67, 68, 48, 48, 49]

/-- `IsoManager._verify_iso_structure`: read the first 2048 bytes; fail if the
file is shorter; accept when they start with `CD001` or with four zero bytes. -/
def verify_iso_structure (bytes : List Nat) : Bool :=
  let header := bytes.take 2048
  if header.length < 2048 then false
  else if header.take 5 = cd001 then true
  else if header.take 4 = [0, 0, 0, 0] then true
  else false

/-- `IsoManager.validate_iso_file`: existence check, 1 MiB minimum size,
then the structure check. -/
def validate_iso_file (exists_on_disk : Bool) (bytes : List Nat) : ValidationResult :=
  if !exists_on_disk then ⟨false, some "File does not exist", none⟩
  else if bytes.length < 1024 * 1024 then ⟨false, some "File too small to be valid ISO", none⟩
  else if !(verify_iso_structure bytes) then ⟨false, some "Invalid ISO structure", none⟩
  else ⟨true, none, some bytes.length⟩

/-- The two accepted markers on the leading block. -/
def isoMarker (bytes : List Nat) : Prop :=
  bytes.take 5 = cd001 ∨ bytes.take 4 = [0, 0, 0, 0]

instance (bytes : List Nat) : Decidable (isoMarker bytes) := by
  unfold isoMarker; infer_instance

theorem verify_iso_structure_eq (bytes : List Nat) (h : 2048 ≤ bytes.length) :
    verify_iso_structure bytes = true ↔ isoMarker bytes := by
  have hlen : (bytes.take 2048).length = 2048 := by
    simp [List.length_take]; omega
  simp only [verify_iso_structure, isoMarker, hlen, List.take_take]
  norm_num

/-- **C3**: for every existing input file, `validate_iso_file` returns invalid
with the "too small" diagnostic when the size is below 1 MiB; returns invalid
with the "invalid structure" diagnostic when the size is at least 1 MiB but the
first 2048 bytes satisfy neither accepted marker (first 5 bytes `CD001`, or
first 4 bytes all zero); and returns valid exactly when the size is at least
1 MiB and one of the two markers holds. -/
theorem C3_validate_iso_file_spec (bytes : List Nat) :
    (bytes.length < 1024 * 1024 →
        validate_iso_file true bytes = ⟨false, some "File too small to be valid ISO", none⟩) ∧
    (1024 * 1024 ≤ bytes.length → ¬ isoMarker bytes →
        validate_iso_file true bytes = ⟨false, some "Invalid ISO structure", none⟩) ∧
    ((validate_iso_file true bytes).valid = true ↔
        1024 * 1024 ≤ bytes.length ∧ isoMarker bytes) := by
  have hbig : 1024 * 1024 ≤ bytes.length → 2048 ≤ bytes.length := by omega
  refine ⟨fun hsmall => ?_, fun hbound hmark => ?_, ?_⟩
  · simp [validate_iso_file, hsmall]
  · have := verify_iso_structure_eq bytes (hbig hbound)
    simp only [validate_iso_file]
    rw [if_neg (by simp), if_neg (by omega)]
    simp_all
  · constructor
    · intro hv
      simp only [validate_iso_file] at hv
      rw [if_neg (by simp)] at hv
      by_cases hlen : bytes.length < 1024 * 1024
      · simp [hlen] at hv
      · rw [if_neg hlen] at hv
        refine ⟨by omega, ?_⟩
        by_cases hs : verify_iso_structure bytes = true
        · exact (verify_iso_structure_eq bytes (hbig (by omega))).mp hs
        · simp [hs] at hv
    · rintro ⟨hbound, hmark⟩
      have hs := (verify_iso_structure_eq bytes (hbig hbound)).mpr hmark
      simp only [validate_iso_file]
      rw [if_neg (by simp), if_neg (by omega)]
      simp [hs]

/-- Witness for C3: a 1 MiB all-zero file is accepted as valid. -/
theorem C3_validate_iso_file_spec_witness :
    (validate_iso_file true (List.replicate (1024 * 1024) 0)).valid = true :=
  (C3_validate_iso_file_spec (List.replicate (1024 * 1024) 0)).2.2.mpr
    ⟨by rw [List.length_replicate], Or.inr (by rw [List.take_replicate]; norm_num; rfl)⟩

/-! ## NexusEngine: the staged migration pipeline

`NexusEngine.execute_os_switch` (src/core/nexus_engine.py:48-92).
The five backend calls (backup, mount, partition preparation, install,
bootloader) are external collaborators; their outcomes are the `StageEnv`
input. The embedding records, besides the returned result dict, the state
the engine and its `IsoManager` hold when the call returns (the `finally`
block has already run), the list of stages whose backend call was invoked,
every value assigned to `operation_progress` in order, and every
`unmount_iso` invocation made during the call (the source makes none).
The run starts from a fresh engine, so the mount table starts empty. -/

inductive Stage
  | backup | mount | partition | install | bootloader
deriving DecidableEq, Repr

structure StageEnv where
  backup_ok : Bool
  mount_ok : Bool
  partition_ok : Bool
  install_ok : Bool
  bootloader_ok : Bool
deriving DecidableEq, Repr

structure RunOutcome where
  success : Bool
  error : Option String
  message : Option String
  current_operation : Option String
  operation_progress : Nat
  invoked : List Stage
  progressTrace : List Nat
  unmountCalls : List String
  mountTableAfter : List String
deriving DecidableEq, Repr

/-- `NexusEngine.execute_os_switch`, one branch per early return of the
source; in every branch the `finally` block has cleared `current_operation`
and reset `operation_progress` to 0 (the trailing 0 of `progressTrace`). -/
def execute_os_switch (iso_path : String) (preserve_data : Bool) (env : StageEnv) :
    RunOutcome :=
  let backupStages : List Stage := if preserve_data then [.backup] else []
  if preserve_data && !env.backup_ok then
    { success := false, error := some "Backup failed", message := none,
      current_operation := none, operation_progress := 0,
      invoked := backupStages, progressTrace := [0, 0],
      unmountCalls := [], mountTableAfter := [] }
  else if !env.mount_ok then
    { success := false, error := some "ISO mount failed", message := none,
      current_operation := none, operation_progress := 0,
      invoked := backupStages ++ [.mount], progressTrace := [0, 20, 0],
      unmountCalls := [], mountTableAfter := [] }
  else if !env.partition_ok then
    { success := false, error := some "Partition preparation failed", message := none,
      current_operation := none, operation_progress := 0,
      invoked := backupStages ++ [.mount, .partition], progressTrace := [0, 20, 40, 0],
      unmountCalls := [], mountTableAfter := [iso_path] }
  else if !env.install_ok then
    { success := false, error := some "Installation failed", message := none,
      current_operation := none, operation_progress := 0,
      invoked := backupStages ++ [.mount, .partition, .install],
      progressTrace := [0, 20, 40, 60, 0],
      unmountCalls := [], mountTableAfter := [iso_path] }
  else if !env.bootloader_ok then
    { success := false, error := some "Bootloader configuration failed", message := none,
      current_operation := none, operation_progress := 0,
      invoked := backupStages ++ [.mount, .partition, .install, .bootloader],
      progressTrace := [0, 20, 40, 60, 80, 0],
      unmountCalls := [], mountTableAfter := [iso_path] }
  else
    { success := true, error := none, message := some "OS switch completed successfully",
      current_operation := none, operation_progress := 0,
      invoked := backupStages ++ [.mount, .partition, .install, .bootloader],
      progressTrace := [0, 20, 40, 60, 80, 100, 0],
      unmountCalls := [], mountTableAfter := [iso_path] }

/-- The fixed error template of each pipeline stage. -/
def stageTemplate : Stage → String
  | .backup => "Backup failed"
  | .mount => "ISO mount failed"
  | .partition => "Partition preparation failed"
  | .install => "Installation failed"
  | .bootloader => "Bootloader configuration failed"

/-- The stages strictly after a given stage in pipeline order. -/
def laterStages : Stage → List Stage
  | .backup => [.mount, .partition, .install, .bootloader]
  | .mount => [.partition, .install, .bootloader]
  | .partition => [.install, .bootloader]
  | .install => [.bootloader]
  | .bootloader => []

/-- The first stage whose backend call reports failure in a run, if any
(the backup stage only runs when `preserve_data` is set). -/
def firstFailing (preserve_data : Bool) (env : StageEnv) : Option Stage :=
  if preserve_data && !env.backup_ok then some .backup
  else if !env.mount_ok then some .mount
  else if !env.partition_ok then some .partition
  else if !env.install_ok then some .install
  else if !env.bootloader_ok then some .bootloader
  else none

/-- **C1**: if any pipeline stage's backend call reports failure, the run
returns failure with exactly that stage's fixed template as error message and
no later stage is invoked; and after the call — on every failure path and on
success alike — the operation status shows `current_operation = None` and
`progress = 0`. -/
theorem C1_pipeline_failure_contract (iso_path : String) (preserve_data : Bool)
    (env : StageEnv) :
    (execute_os_switch iso_path preserve_data env).current_operation = none ∧
    (execute_os_switch iso_path preserve_data env).operation_progress = 0 ∧
    (∀ s, firstFailing preserve_data env = some s →
        (execute_os_switch iso_path preserve_data env).success = false ∧
        (execute_os_switch iso_path preserve_data env).error = some (stageTemplate s) ∧
        ∀ s' ∈ laterStages s, s' ∉ (execute_os_switch iso_path preserve_data env).invoked) ∧
    (firstFailing preserve_data env = none →
        (execute_os_switch iso_path preserve_data env).success = true ∧
        (execute_os_switch iso_path preserve_data env).error = none) := by
  obtain ⟨b, m, p, i, bl⟩ := env
  cases preserve_data <;> cases b <;> cases m <;> cases p <;> cases i <;> cases bl <;>
    simp [execute_os_switch, firstFailing] <;> decide

/-- Witness for C1: with backup and mount succeeding and partition
preparation failing, the run fails with the partition template, the install
and bootloader stages are not invoked, and the status is cleared. -/
theorem C1_pipeline_failure_contract_witness :
    (execute_os_switch "linux.iso" true ⟨true, true, false, true, true⟩).current_operation
        = none ∧
    (execute_os_switch "linux.iso" true ⟨true, true, false, true, true⟩).operation_progress
        = 0 ∧
    (execute_os_switch "linux.iso" true ⟨true, true, false, true, true⟩).success = false ∧
    (execute_os_switch "linux.iso" true ⟨true, true, false, true, true⟩).error
        = some (stageTemplate .partition) ∧
    Stage.install ∉ (execute_os_switch "linux.iso" true ⟨true, true, false, true, true⟩).invoked := by
  obtain ⟨h1, h2, h3, _⟩ := C1_pipeline_failure_contract "linux.iso" true ⟨true, true, false, true, true⟩
  obtain ⟨hs, he, hl⟩ := h3 .partition (by decide)
  exact ⟨h1, h2, hs, he, hl .install (by decide)⟩

/-- **C4**: within one run the values assigned to `operation_progress`, apart
from the final `finally` reset, form a monotonically non-decreasing sequence
that is a prefix of `0, 20, 40, 60, 80, 100`, starting at 0 and containing no
other 0; the sequence contains 100 exactly on successful runs; and the run
boundary resets the progress to 0 exactly once (the single trailing
assignment). -/
theorem C4_progress_monotone (iso_path : String) (preserve_data : Bool) (env : StageEnv) :
    ((execute_os_switch iso_path preserve_data env).progressTrace.dropLast
        <+: [0, 20, 40, 60, 80, 100]) ∧
    List.Chain' (· ≤ ·)
        (execute_os_switch iso_path preserve_data env).progressTrace.dropLast ∧
    (100 ∈ (execute_os_switch iso_path preserve_data env).progressTrace ↔
        (execute_os_switch iso_path preserve_data env).success = true) ∧
    (execute_os_switch iso_path preserve_data env).progressTrace.head? = some 0 ∧
    (execute_os_switch iso_path preserve_data env).progressTrace.getLast? = some 0 ∧
    (execute_os_switch iso_path preserve_data env).progressTrace.dropLast.count 0 = 1 ∧
    ((execute_os_switch iso_path preserve_data env).success = true →
        (execute_os_switch iso_path preserve_data env).progressTrace.dropLast
          = [0, 20, 40, 60, 80, 100]) := by
  obtain ⟨b, m, p, i, bl⟩ := env
  cases preserve_data <;> cases b <;> cases m <;> cases p <;> cases i <;> cases bl <;>
    simp [execute_os_switch]

/-- Witness for C4: a fully successful run's progress assignments are
`0, 20, 40, 60, 80, 100` followed by the single boundary reset to 0. -/
theorem C4_progress_monotone_witness :
    (execute_os_switch "linux.iso" true ⟨true, true, true, true, true⟩).progressTrace.dropLast
        = [0, 20, 40, 60, 80, 100] ∧
    100 ∈ (execute_os_switch "linux.iso" true ⟨true, true, true, true, true⟩).progressTrace := by
  have h := C4_progress_monotone "linux.iso" true ⟨true, true, true, true, true⟩
  exact ⟨h.2.2.2.2.2.2 rfl, h.2.2.1.mpr rfl⟩

/-! ## IsoManager: the Mount Table

`IsoManager.mount_iso` (src/core/iso_manager.py:97-119),
`IsoManager.unmount_iso` (src/core/iso_manager.py:121-146) and
`IsoManager.cleanup` (src/core/iso_manager.py:189-194).
`mounted_isos` is a Python dict from image path to mount point, modelled as
an insertion-ordered association list; the filesystem side is modelled by
the list of existing mount-point directories. The platform mount/unmount
commands are external: their exit status (`cmd_ok`) and stderr are inputs. -/

structure MountResult where
  success : Bool
  mount_point : Option String
  error : Option String
deriving DecidableEq, Repr

structure UnmountResult where
  success : Bool
  error : Option String
deriving DecidableEq, Repr

structure IsoState where
  table : List (String × String)
  dirs : List String
deriving DecidableEq, Repr

/-- `d[k] = v` on a Python dict: update the entry in place when the key is
present, append a new entry otherwise. -/
def dictInsert {α : Type} (table : List (String × α)) (k : String) (v : α) :
    List (String × α) :=
  if table.any (fun e => e.1 == k) then
    table.map (fun e => if e.1 == k then (k, v) else e)
  else table ++ [(k, v)]

/-- The fresh mount-point directory name chosen by `mount_iso`:
`mount_{len(self.mounted_isos)}` under the manager's temp directory. -/
def mount_point_name (st : IsoState) : String :=
  "mount_" ++ toString st.table.length

/-- `IsoManager.mount_iso`: create the mount-point directory
(`os.makedirs ... exist_ok=True` — it is created whether or not the mount
command then succeeds), run the platform mount command, and record the
mapping in the table only on command success. -/
def mount_iso (st : IsoState) (cmd_ok : Bool) (cmd_stderr : String)
    (iso_path : String) : MountResult × IsoState :=
  let mp := mount_point_name st
  let dirs' := if st.dirs.contains mp then st.dirs else st.dirs ++ [mp]
  if cmd_ok then
    (⟨true, some mp, none⟩, ⟨dictInsert st.table iso_path mp, dirs'⟩)
  else
    (⟨false, none, some cmd_stderr⟩, ⟨st.table, dirs'⟩)

/-- `IsoManager.unmount_iso`: fail with `'ISO not mounted'` when the path is
absent from the table, touching nothing; otherwise run the platform unmount
command and, on its success, delete the table entry and remove the
mount-point directory tree. -/
def unmount_iso (st : IsoState) (cmd_ok : Bool) (cmd_stderr : String)
    (iso_path : String) : UnmountResult × IsoState :=
  match st.table.find? (fun e => e.1 == iso_path) with
  | none => (⟨false, some "ISO not mounted"⟩, st)
  | some entry =>
      if cmd_ok then
        (⟨true, none⟩,
         ⟨st.table.filter (fun e => !(e.1 == iso_path)),
          st.dirs.filter (fun d => !(d == entry.2))⟩)
      else
        (⟨false, some cmd_stderr⟩, st)

/-- Helper for `cleanup`: call `unmount_iso` on each key of the snapshot,
threading the state; the second component lists the `unmount_iso`
invocations in order. -/
def cleanupGo (keys : List String) (ok : String → Bool) (stderr : String → String)
    (st : IsoState) : IsoState × List String :=
  match keys with
  | [] => (st, [])
  | k :: ks =>
      let st' := (unmount_iso st (ok k) (stderr k) k).2
      let rest := cleanupGo ks ok stderr st'
      (rest.1, k :: rest.2)

/-- `IsoManager.cleanup`: iterate over `list(self.mounted_isos.keys())` — a
snapshot of the table's keys — calling `unmount_iso` on each. (The final
removal of the manager's temp directory is not modelled.) -/
def cleanup (st : IsoState) (ok : String → Bool) (stderr : String → String) :
    IsoState × List String :=
  cleanupGo (st.table.map Prod.fst) ok stderr st

theorem cleanupGo_calls (keys : List String) (ok : String → Bool)
    (stderr : String → String) (st : IsoState) :
    (cleanupGo keys ok stderr st).2 = keys := by
  induction keys generalizing st with
  | nil => rfl
  | cons k ks ih => simp [cleanupGo, ih]

theorem find?_map_update {α : Type} (t : List (String × α)) (k : String) (v : α)
    (hany : t.any (fun e => e.1 == k) = true) :
    (t.map (fun e => if e.1 == k then (k, v) else e)).find? (fun e => e.1 == k)
      = some (k, v) := by
  induction t with
  | nil => simp at hany
  | cons e t ih =>
      by_cases he : e.1 = k
      · rw [List.map_cons, if_pos (by simpa using he)]
        exact List.find?_cons_of_pos _ (by simp)
      · have hbe : (e.1 == k) = false := by simpa using he
        rw [List.map_cons, if_neg (by simp [hbe])]
        rw [List.find?_cons_of_neg _ (by simp [hbe])]
        exact ih (by simpa [hbe] using hany)

theorem find?_append_new {α : Type} (t : List (String × α)) (k : String) (v : α)
    (hany : t.any (fun e => e.1 == k) = false) :
    (t ++ [(k, v)]).find? (fun e => e.1 == k) = some (k, v) := by
  induction t with
  | nil => simp
  | cons e t ih =>
      simp only [List.any_cons, Bool.or_eq_false_iff] at hany
      rw [List.cons_append, List.find?_cons_of_neg _ (by simp [hany.1])]
      exact ih hany.2

theorem find?_dictInsert {α : Type} (t : List (String × α)) (k : String) (v : α) :
    (dictInsert t k v).find? (fun e => e.1 == k) = some (k, v) := by
  unfold dictInsert
  by_cases hany : t.any (fun e => e.1 == k) = true
  · rw [if_pos hany]; exact find?_map_update t k v hany
  · rw [if_neg hany]
    exact find?_append_new t k v (eq_false_of_ne_true hany)

/-- **C9**: when the backend mount and unmount commands succeed, `mount_iso`
followed by `unmount_iso` on the same image path leaves the Mount Table
without that path and removes the mount-point directory; and for every path
not present in the Mount Table, `unmount_iso` returns the `'ISO not mounted'`
failure without modifying the table or the filesystem. -/
theorem C9_mount_unmount_roundtrip (st : IsoState)
    (iso_path mount_stderr umount_stderr : String) :
    ((mount_iso st true mount_stderr iso_path).1.success = true ∧
     (mount_iso st true mount_stderr iso_path).1.mount_point
        = some (mount_point_name st) ∧
     (unmount_iso (mount_iso st true mount_stderr iso_path).2 true umount_stderr
        iso_path).1.success = true ∧
     iso_path ∉ ((unmount_iso (mount_iso st true mount_stderr iso_path).2 true
        umount_stderr iso_path).2.table.map Prod.fst) ∧
     mount_point_name st ∉ (unmount_iso (mount_iso st true mount_stderr iso_path).2
        true umount_stderr iso_path).2.dirs) ∧
    (iso_path ∉ st.table.map Prod.fst →
        unmount_iso st true umount_stderr iso_path
          = (⟨false, some "ISO not mounted"⟩, st)) := by
  constructor
  · have hm : (mount_iso st true mount_stderr iso_path).2.table
        = dictInsert st.table iso_path (mount_point_name st) := rfl
    have hf : (mount_iso st true mount_stderr iso_path).2.table.find?
        (fun e => e.1 == iso_path) = some (iso_path, mount_point_name st) := by
      rw [hm]; exact find?_dictInsert st.table iso_path (mount_point_name st)
    refine ⟨rfl, rfl, ?_, ?_, ?_⟩
    · simp [unmount_iso, hf]
    · simp only [unmount_iso, hf]
      simp [List.mem_map, List.mem_filter]
    · simp only [unmount_iso, hf]
      simp [List.mem_filter]
  · intro habs
    have hnone : st.table.find? (fun e => e.1 == iso_path) = none := by
      rw [List.find?_eq_none]
      intro e he
      simp only [beq_iff_eq]
      intro hek
      exact habs (List.mem_map.mpr ⟨e, he, hek⟩)
    simp [unmount_iso, hnone]

/-- Witness for C9: mounting `"a.iso"` on a fresh manager and unmounting it
leaves the table without the path and removes the directory `mount_0`; and
unmounting the never-mounted `"b.iso"` fails with `'ISO not mounted'` and
changes nothing. -/
theorem C9_mount_unmount_roundtrip_witness :
    ("a.iso" ∉ ((unmount_iso (mount_iso ⟨[], []⟩ true "" "a.iso").2 true ""
        "a.iso").2.table.map Prod.fst) ∧
     mount_point_name ⟨[], []⟩ ∉ (unmount_iso (mount_iso ⟨[], []⟩ true "" "a.iso").2
        true "" "a.iso").2.dirs) ∧
    unmount_iso ⟨[], []⟩ true "" "b.iso" = (⟨false, some "ISO not mounted"⟩, ⟨[], []⟩) := by
  have h := C9_mount_unmount_roundtrip ⟨[], []⟩ "a.iso" "" ""
  have h2 := (C9_mount_unmount_roundtrip ⟨[], []⟩ "b.iso" "" "").2 (by simp)
  exact ⟨⟨h.1.2.2.2.1, h.1.2.2.2.2⟩, h2⟩

/-- Counterexample to C2 as stated: in a run where `mount_iso` succeeds and
partition preparation fails, `execute_os_switch` returns with the image still
in the Mount Table and with no `unmount_iso` invocation at all — not the
claimed exactly-one unmount before the run's result is returned. -/
theorem C2_counterexample :
    (execute_os_switch "ubuntu.iso" true ⟨true, true, false, true, true⟩).unmountCalls
        = [] ∧
    (execute_os_switch "ubuntu.iso" true ⟨true, true, false, true, true⟩).mountTableAfter
        = ["ubuntu.iso"] ∧
    ¬ ((execute_os_switch "ubuntu.iso" true
        ⟨true, true, false, true, true⟩).unmountCalls.count "ubuntu.iso" = 1) :=
  ⟨rfl, rfl, by decide⟩

/-- **C2 (amended)**: `execute_os_switch` performs no `unmount_iso` call on
any path — success or failure — and a successfully mounted image is still in
the Mount Table when the run's result is returned; the mount/unmount pairing
is established only by `IsoManager.cleanup`, which invokes `unmount_iso`
exactly once for each mounted image path and never for an unmounted one. -/
theorem C2_unmount_only_in_cleanup :
    (∀ (iso_path : String) (preserve_data : Bool) (env : StageEnv),
        (execute_os_switch iso_path preserve_data env).unmountCalls = []) ∧
    (∀ (iso_path : String) (preserve_data : Bool) (env : StageEnv),
        env.mount_ok = true → (preserve_data && !env.backup_ok) = false →
        (execute_os_switch iso_path preserve_data env).mountTableAfter = [iso_path]) ∧
    (∀ (st : IsoState) (ok : String → Bool) (stderr : String → String),
        (st.table.map Prod.fst).Nodup →
        ∀ iso_path ∈ st.table.map Prod.fst,
          (cleanup st ok stderr).2.count iso_path = 1) ∧
    (∀ (st : IsoState) (ok : String → Bool) (stderr : String → String)
        (iso_path : String), iso_path ∉ st.table.map Prod.fst →
          (cleanup st ok stderr).2.count iso_path = 0) := by
  refine ⟨?_, ?_, ?_, ?_⟩
  · intro iso_path pd env
    obtain ⟨b, m, p, i, bl⟩ := env
    cases pd <;> cases b <;> cases m <;> cases p <;> cases i <;> cases bl <;>
      simp [execute_os_switch]
  · intro iso_path pd env hm hb
    obtain ⟨b, m, p, i, bl⟩ := env
    cases pd <;> cases b <;> cases m <;> cases p <;> cases i <;> cases bl <;>
      simp_all [execute_os_switch]
  · intro st ok stderr hnd iso_path hmem
    rw [cleanup, cleanupGo_calls]
    exact List.count_eq_one_of_mem hnd hmem
  · intro st ok stderr iso_path habs
    rw [cleanup, cleanupGo_calls]
    exact List.count_eq_zero_of_not_mem habs

/-- Witness for the amended C2: on a manager with `a.iso` and `b.iso`
mounted, `cleanup` invokes `unmount_iso` exactly once for `a.iso` and never
for the unmounted `c.iso`; and the failing run of the counterexample makes no
unmount call. -/
theorem C2_unmount_only_in_cleanup_witness :
    (execute_os_switch "ubuntu.iso" true ⟨true, true, true, false, true⟩).unmountCalls
        = [] ∧
    (execute_os_switch "ubuntu.iso" true ⟨true, true, true, false, true⟩).mountTableAfter
        = ["ubuntu.iso"] ∧
    (cleanup ⟨[("a.iso", "mount_0"), ("b.iso", "mount_1")], ["mount_0", "mount_1"]⟩
        (fun _ => true) (fun _ => "")).2.count "a.iso" = 1 ∧
    (cleanup ⟨[("a.iso", "mount_0"), ("b.iso", "mount_1")], ["mount_0", "mount_1"]⟩
        (fun _ => true) (fun _ => "")).2.count "c.iso" = 0 := by
  obtain ⟨h1, h2, h3, h4⟩ := C2_unmount_only_in_cleanup
  refine ⟨h1 "ubuntu.iso" true ⟨true, true, true, false, true⟩,
    h2 "ubuntu.iso" true ⟨true, true, true, false, true⟩ rfl rfl,
    h3 ⟨[("a.iso", "mount_0"), ("b.iso", "mount_1")], ["mount_0", "mount_1"]⟩
      (fun _ => true) (fun _ => "") (by decide) "a.iso" (by decide),
    h4 ⟨[("a.iso", "mount_0"), ("b.iso", "mount_1")], ["mount_0", "mount_1"]⟩
      (fun _ => true) (fun _ => "") "c.iso" (by decide)⟩

/-! ## OsDetector: image classification

`OsDetector.os_signatures` (src/core/os_detector.py:11-27),
`OsDetector._analyze_mounted_iso` (src/core/os_detector.py:274-292),
`OsDetector._matches_signatures` (src/core/os_detector.py:294-311) and
`OsDetector._search_in_directory` (src/core/os_detector.py:313-325).
A mounted tree is modelled by the names of every file anywhere under the
root (what `os.walk` yields) and the names of the entries directly under
the root (what `os.path.exists(join(root, d))` tests); names are lists of
characters so that Python's `str.lower` and substring test embed directly. -/

structure Tree where
  files : List (List Char)
  topEntries : List (List Char)
deriving DecidableEq, Repr

structure Signature where
  patterns : List (List Char)
  files : List (List Char)
  directories : List (List Char)
deriving DecidableEq, Repr

def lowerName (s : List Char) : List Char := s.map Char.toLower

/-- `OsDetector._search_in_directory`: walk every file name of the tree; in
the regex branch `re.search(pattern, file, re.IGNORECASE)` and in the plain
branch `pattern.lower() in file.lower()`. Every pattern in `os_signatures`
is a literal without regex metacharacters, so both branches are the same
case-insensitive substring test over the file name. -/
def search_in_directory (tree_files : List (List Char)) (pat : List Char) : Bool :=
  tree_files.any (fun f => decide (lowerName pat <:+: lowerName f))

/-- The middle loop of `_matches_signatures`: accept when some marker file
name of the family is found by `_search_in_directory`. -/
def marker_file_rule (t : Tree) (sig : Signature) : Bool :=
  sig.files.any (fun m => search_in_directory t.files m)

/-- `OsDetector._matches_signatures`: patterns loop, then marker-file loop,
then marker-directory loop; any hit accepts the family. -/
def matches_signatures (t : Tree) (sig : Signature) : Bool :=
  sig.patterns.any (fun p => search_in_directory t.files p) ||
  marker_file_rule t sig ||
  sig.directories.any (fun d => t.topEntries.contains d)

def windowsSignature : Signature :=
  ⟨["windows".toList, "winnt".toList, "win32".toList],
   ["bootmgr".toList, "ntldr".toList, "winload.exe".toList],
   ["Windows".toList, "Program Files".toList]⟩

def linuxSignature : Signature :=
  ⟨["linux".toList, "ubuntu".toList, "debian".toList, "fedora".toList, "centos".toList],
   ["vmlinuz".toList, "initrd.img".toList, "grub.cfg".toList],
   ["boot".toList, "etc".toList, "usr".toList]⟩

def macosSignature : Signature :=
  ⟨["macos".toList, "darwin".toList, "mac os".toList],
   ["mach_kernel".toList, "boot.efi".toList],
   ["System".toList, "Applications".toList]⟩

/-- `OsDetector.os_signatures`, in the dict's insertion order. -/
def os_signatures : List (String × Signature) :=
  [("windows", windowsSignature), ("linux", linuxSignature), ("macos", macosSignature)]

/-- The `type` field computed by `_analyze_mounted_iso`: iterate
`os_signatures` in order, take the first matching family and break;
`"Unknown"` when none matches. -/
def analyze_mounted_iso_type (t : Tree) : String :=
  match os_signatures.find? (fun e => matches_signatures t e.2) with
  | some e => e.1
  | none => "Unknown"

/-- **C5**: classification is deterministic and order-stable — the result is
a function of the tree alone, and it is the first family of the fixed
priority order (windows before linux before macos) whose signature the tree
matches, so on a tree matching two or more families the family appearing
earlier in that order is always returned and the later one never is. -/
theorem C5_classification_first_match (t : Tree) :
    (matches_signatures t windowsSignature = true →
        analyze_mounted_iso_type t = "windows") ∧
    (matches_signatures t windowsSignature = false →
        matches_signatures t linuxSignature = true →
        analyze_mounted_iso_type t = "linux") ∧
    (matches_signatures t windowsSignature = false →
        matches_signatures t linuxSignature = false →
        matches_signatures t macosSignature = true →
        analyze_mounted_iso_type t = "macos") ∧
    (matches_signatures t windowsSignature = true →
        analyze_mounted_iso_type t ≠ "linux" ∧ analyze_mounted_iso_type t ≠ "macos") ∧
    (matches_signatures t linuxSignature = true →
        analyze_mounted_iso_type t ≠ "macos") ∧
    (∀ t', t' = t → analyze_mounted_iso_type t' = analyze_mounted_iso_type t) := by
  refine ⟨fun hw => ?_, fun hw hl => ?_, fun hw hl hm => ?_, fun hw => ?_, fun hl => ?_,
    fun t' ht => by rw [ht]⟩
  · simp [analyze_mounted_iso_type, os_signatures, List.find?, hw]
  · simp [analyze_mounted_iso_type, os_signatures, List.find?, hw, hl]
  · simp [analyze_mounted_iso_type, os_signatures, List.find?, hw, hl, hm]
  · simp [analyze_mounted_iso_type, os_signatures, List.find?, hw]
  · cases hw : matches_signatures t windowsSignature <;>
      simp [analyze_mounted_iso_type, os_signatures, List.find?, hw, hl]

/-- Witness for C5: a tree holding both `bootmgr` (a windows marker file)
and `vmlinuz` (a linux marker file) matches both families and is classified
as windows, the earlier family. -/
theorem C5_classification_first_match_witness :
    matches_signatures ⟨["bootmgr".toList, "vmlinuz".toList], []⟩ windowsSignature
        = true ∧
    matches_signatures ⟨["bootmgr".toList, "vmlinuz".toList], []⟩ linuxSignature
        = true ∧
    analyze_mounted_iso_type ⟨["bootmgr".toList, "vmlinuz".toList], []⟩ = "windows" :=
  ⟨by decide, by decide,
   (C5_classification_first_match ⟨["bootmgr".toList, "vmlinuz".toList], []⟩).1 (by decide)⟩

/-- Counterexample to C6 as stated: a tree whose only file is
`notbootmgr.bak` — which merely contains the windows marker `bootmgr` as a
proper substring and equals no marker exactly — satisfies the windows
marker-file rule by itself (patterns and directories contribute nothing),
so the family is accepted without any exact marker-name match. -/
theorem C6_counterexample :
    marker_file_rule ⟨["notbootmgr.bak".toList], []⟩ windowsSignature = true ∧
    matches_signatures ⟨["notbootmgr.bak".toList], []⟩ windowsSignature = true ∧
    windowsSignature.patterns.any
        (fun p => search_in_directory [("notbootmgr.bak".toList)] p) = false ∧
    windowsSignature.directories.any
        (fun d => ([] : List (List Char)).contains d) = false ∧
    (["notbootmgr.bak".toList] : List (List Char)).all
        (fun f => windowsSignature.files.all (fun m => !(f == m))) = true := by
  decide

/-- **C6 (amended)**: the marker-file rule accepts a family exactly when some
file name in the tree contains some marker name of the family as a
case-insensitive substring; a name exactly equal to a marker satisfies it,
but so does a name that merely contains a marker as a proper substring. -/
theorem C6_marker_rule_is_substring_match (t : Tree) (sig : Signature) :
    (marker_file_rule t sig = true ↔
        ∃ m ∈ sig.files, ∃ f ∈ t.files, lowerName m <:+: lowerName f) ∧
    (∀ f ∈ t.files, ∀ m ∈ sig.files, f = m → marker_file_rule t sig = true) := by
  constructor
  · simp [marker_file_rule, search_in_directory]
  · intro f hf m hm hfm
    simp only [marker_file_rule, search_in_directory, List.any_eq_true, decide_eq_true_eq]
    exact ⟨m, hm, f, hf, hfm ▸ List.infix_rfl⟩

/-- Witness for the amended C6: a tree whose only file is exactly `bootmgr`
satisfies the windows marker-file rule through the exact-equality case. -/
theorem C6_marker_rule_is_substring_match_witness :
    marker_file_rule ⟨["bootmgr".toList], []⟩ windowsSignature = true :=
  (C6_marker_rule_is_substring_match ⟨["bootmgr".toList], []⟩ windowsSignature).2
    ("bootmgr".toList) (by decide) ("bootmgr".toList) (by decide) rfl

/-! ## BackupManager: restoring a system backup

`BackupManager._restore_windows_backup` (src/core/backup_manager.py:138-163)
and `BackupManager._restore_unix_backup` (src/core/backup_manager.py:165-190).
Each runs a fixed sequence of three copy commands (robocopy on the Windows
family, `sudo cp -r` on the Unix family); the commands' exit statuses and
stderr texts are external inputs, indexed by position in the sequence.
`tempDirLeftBehind` records whether the temporary extraction directory
exists when the function returns: it is created after the format check and
removed (`shutil.rmtree`) only on the success path. -/

structure RestoreOutcome where
  success : Bool
  error : Option String
  message : Option String
  tempDirLeftBehind : Bool
  commandsRun : Nat
deriving DecidableEq, Repr

/-- Python's `str.endswith`. -/
def pyEndsWith (s suffix : String) : Bool := decide (suffix.data <:+ s.data)

/-- Accepted robocopy exit statuses: the source aborts on
`returncode not in [0, 1]`. -/
def winAccept (c : Nat) : Bool := c == 0 || c == 1

/-- Accepted `cp` exit status: the source aborts on `returncode != 0`. -/
def unixAccept (c : Nat) : Bool := c == 0

/-- The copy-command loop shared by both restore functions: run the commands
in order and abort at the first unaccepted exit status with the diagnostic
`'Restore command failed: '` plus that command's stderr. Returns how many
commands ran and the error, if any. -/
def restoreLoop (accept : Nat → Bool) (code : Nat → Nat) (stderr : Nat → String) :
    List Nat → Nat × Option String
  | [] => (0, none)
  | i :: rest =>
      if accept (code i) then
        let r := restoreLoop accept code stderr rest
        (r.1 + 1, r.2)
      else (1, some ("Restore command failed: " ++ stderr i))

/-- `BackupManager._restore_windows_backup`. -/
def restore_windows_backup (backup_file : String) (code : Nat → Nat)
    (stderr : Nat → String) : RestoreOutcome :=
  if !(pyEndsWith backup_file ".zip") then
    ⟨false, some "Invalid backup file format", none, false, 0⟩
  else
    let r := restoreLoop winAccept code stderr [0, 1, 2]
    match r.2 with
    | some err => ⟨false, some err, none, true, r.1⟩
    | none => ⟨true, none, some "Windows backup restored successfully", false, r.1⟩

/-- `BackupManager._restore_unix_backup`. -/
def restore_unix_backup (backup_file : String) (code : Nat → Nat)
    (stderr : Nat → String) : RestoreOutcome :=
  if !(pyEndsWith backup_file ".tar.gz") then
    ⟨false, some "Invalid backup file format", none, false, 0⟩
  else
    let r := restoreLoop unixAccept code stderr [0, 1, 2]
    match r.2 with
    | some err => ⟨false, some err, none, true, r.1⟩
    | none => ⟨true, none, some "Unix backup restored successfully", false, r.1⟩

/-- The first command in the sequence whose exit status the stage's accepted
set rejects, if any — the point where the restore loop aborts. -/
def firstReject (accept : Nat → Bool) (code : Nat → Nat) : List Nat → Option Nat
  | [] => none
  | i :: rest => if accept (code i) then firstReject accept code rest else some i

theorem restoreLoop_error (accept : Nat → Bool) (code : Nat → Nat)
    (stderr : Nat → String) (l : List Nat) :
    (restoreLoop accept code stderr l).2
      = (firstReject accept code l).map
          (fun i => "Restore command failed: " ++ stderr i) := by
  induction l with
  | nil => rfl
  | cons i rest ih =>
      simp only [restoreLoop, firstReject]
      split <;> simp [ih]

theorem firstReject_eq_none (accept : Nat → Bool) (code : Nat → Nat) (l : List Nat) :
    firstReject accept code l = none ↔ ∀ i ∈ l, accept (code i) = true := by
  induction l with
  | nil => simp [firstReject]
  | cons i rest ih =>
      simp only [firstReject]
      split <;> simp_all

/-- Counterexample to C7 as stated: restoring `backup.tar.gz` when the first
copy command exits with status 1 aborts with the generic
`'Restore command failed'` diagnostic, but the temporary extraction
directory is NOT removed before the operation returns — `shutil.rmtree` sits
after the command loop and only runs on the success path. -/
theorem C7_counterexample :
    (restore_unix_backup "backup.tar.gz" (fun _ => 1)
        (fun _ => "cp: cannot stat")).success = false ∧
    (restore_unix_backup "backup.tar.gz" (fun _ => 1)
        (fun _ => "cp: cannot stat")).error
        = some "Restore command failed: cp: cannot stat" ∧
    (restore_unix_backup "backup.tar.gz" (fun _ => 1)
        (fun _ => "cp: cannot stat")).tempDirLeftBehind = true := by
  decide

/-- **C7 (amended)**: on both backends, if any single copy command in the
fixed restore sequence fails, the restore aborts with the diagnostic
`'Restore command failed: '` followed by that command's stderr; the
temporary extraction directory is removed only on the success path — on a
copy-command failure it is left behind when the operation returns. -/
theorem C7_restore_tempdir_contract (backup_file : String) (code : Nat → Nat)
    (stderr : Nat → String) :
    (pyEndsWith backup_file ".tar.gz" = true →
      (∀ i, firstReject unixAccept code [0, 1, 2] = some i →
          (restore_unix_backup backup_file code stderr).success = false ∧
          (restore_unix_backup backup_file code stderr).error
              = some ("Restore command failed: " ++ stderr i) ∧
          (restore_unix_backup backup_file code stderr).tempDirLeftBehind = true) ∧
      (firstReject unixAccept code [0, 1, 2] = none →
          (restore_unix_backup backup_file code stderr).success = true ∧
          (restore_unix_backup backup_file code stderr).tempDirLeftBehind = false)) ∧
    (pyEndsWith backup_file ".zip" = true →
      (∀ i, firstReject winAccept code [0, 1, 2] = some i →
          (restore_windows_backup backup_file code stderr).success = false ∧
          (restore_windows_backup backup_file code stderr).error
              = some ("Restore command failed: " ++ stderr i) ∧
          (restore_windows_backup backup_file code stderr).tempDirLeftBehind = true) ∧
      (firstReject winAccept code [0, 1, 2] = none →
          (restore_windows_backup backup_file code stderr).success = true ∧
          (restore_windows_backup backup_file code stderr).tempDirLeftBehind = false)) := by
  constructor
  · intro hext
    constructor
    · intro i hi
      simp [restore_unix_backup, hext, restoreLoop_error, hi]
    · intro hnone
      simp [restore_unix_backup, hext, restoreLoop_error, hnone]
  · intro hext
    constructor
    · intro i hi
      simp [restore_windows_backup, hext, restoreLoop_error, hi]
    · intro hnone
      simp [restore_windows_backup, hext, restoreLoop_error, hnone]

/-- Witness for the amended C7: concrete runs of the Unix restore — second
copy command failing with status 2, and all commands succeeding. -/
theorem C7_restore_tempdir_contract_witness :
    ((restore_unix_backup "b.tar.gz" (fun i => if i = 0 then 0 else 2)
        (fun _ => "cp: boom")).error = some "Restore command failed: cp: boom" ∧
     (restore_unix_backup "b.tar.gz" (fun i => if i = 0 then 0 else 2)
        (fun _ => "cp: boom")).tempDirLeftBehind = true) ∧
    ((restore_unix_backup "b.tar.gz" (fun _ => 0) (fun _ => "")).success = true ∧
     (restore_unix_backup "b.tar.gz" (fun _ => 0) (fun _ => "")).tempDirLeftBehind
        = false) := by
  have h1 := ((C7_restore_tempdir_contract "b.tar.gz" (fun i => if i = 0 then 0 else 2)
      (fun _ => "cp: boom")).1 (by decide)).1 1 (by decide)
  have h2 := ((C7_restore_tempdir_contract "b.tar.gz" (fun _ => 0)
      (fun _ => "")).1 (by decide)).2 (by decide)
  exact ⟨⟨h1.2.1, h1.2.2⟩, h2⟩

/-- **C8**: a restore stage succeeds only if every copy command in its fixed
sequence returns an accepted exit status; the accepted set is `{0, 1}` for
the Windows-family robocopy commands (status 1 tolerated as a non-fatal
warning) and exactly `{0}` for the Unix-family `cp` commands. -/
theorem C8_accepted_exit_statuses (backup_file : String) (code : Nat → Nat)
    (stderr : Nat → String) :
    (pyEndsWith backup_file ".zip" = true →
      ((restore_windows_backup backup_file code stderr).success = true ↔
        ∀ i ∈ [0, 1, 2], code i = 0 ∨ code i = 1)) ∧
    (pyEndsWith backup_file ".tar.gz" = true →
      ((restore_unix_backup backup_file code stderr).success = true ↔
        ∀ i ∈ [0, 1, 2], code i = 0)) := by
  constructor
  · intro hext
    rw [show (∀ i ∈ [0, 1, 2], code i = 0 ∨ code i = 1) ↔
        firstReject winAccept code [0, 1, 2] = none by
      rw [firstReject_eq_none]; simp [winAccept]]
    constructor
    · intro hs
      cases hfr : firstReject winAccept code [0, 1, 2] with
      | none => rfl
      | some i => simp [restore_windows_backup, hext, restoreLoop_error, hfr] at hs
    · intro hnone
      simp [restore_windows_backup, hext, restoreLoop_error, hnone]
  · intro hext
    rw [show (∀ i ∈ [0, 1, 2], code i = 0) ↔
        firstReject unixAccept code [0, 1, 2] = none by
      rw [firstReject_eq_none]; simp [unixAccept]]
    constructor
    · intro hs
      cases hfr : firstReject unixAccept code [0, 1, 2] with
      | none => rfl
      | some i => simp [restore_unix_backup, hext, restoreLoop_error, hfr] at hs
    · intro hnone
      simp [restore_unix_backup, hext, restoreLoop_error, hnone]

/-- Witness for C8: robocopy status 1 is tolerated on the Windows-family
restore, while `cp` status 1 fails the Unix-family restore. -/
theorem C8_accepted_exit_statuses_witness :
    (restore_windows_backup "b.zip" (fun _ => 1) (fun _ => "")).success = true ∧
    ¬ ((restore_unix_backup "b.tar.gz" (fun _ => 1) (fun _ => "")).success = true) := by
  have hw := ((C8_accepted_exit_statuses "b.zip" (fun _ => 1) (fun _ => "")).1
      (by decide)).mpr (by decide)
  have hu := (C8_accepted_exit_statuses "b.tar.gz" (fun _ => 1) (fun _ => "")).2
      (by decide)
  refine ⟨hw, fun hs => ?_⟩
  have := hu.mp hs 1 (by decide)
  exact absurd this (by decide)

/-! ## BackupManager: the backup catalog

`BackupManager.create_system_backup` (src/core/backup_manager.py:19-48) and
`BackupManager.get_backup_metadata` (src/core/backup_manager.py:278-279).
The platform `_create_windows_backup` / `_create_unix_backup` helper is an
external call (`backend_ok`, `backend_error`); the timestamp-derived id from
`_generate_backup_id` is an input. The source mutates the one `backup_info`
dict shared between `active_backups` and (on success) `backup_metadata`;
here each catalog holds the record's final value. -/

structure BackupInfo where
  id : String
  path : String
  status : String
deriving DecidableEq, Repr

structure BackupResult where
  success : Bool
  backup_id : Option String
  path : Option String
  error : Option String
deriving DecidableEq, Repr

structure BackupState where
  active_backups : List (String × BackupInfo)
  backup_metadata : List (String × BackupInfo)
deriving DecidableEq, Repr

/-- `BackupManager.create_system_backup`: record the `in_progress` info in
`active_backups`, run the platform backup helper, then on success mark the
record `completed` and enter it into `backup_metadata`; on failure mark it
`failed` and leave `backup_metadata` untouched. -/
def create_system_backup (st : BackupState) (backup_id backup_path : String)
    (backend_ok : Bool) (backend_error : String) : BackupResult × BackupState :=
  let active1 := dictInsert st.active_backups backup_id
      ⟨backup_id, backup_path, "in_progress"⟩
  if backend_ok then
    let info : BackupInfo := ⟨backup_id, backup_path, "completed"⟩
    (⟨true, some backup_id, some backup_path, none⟩,
     ⟨dictInsert active1 backup_id info,
      dictInsert st.backup_metadata backup_id info⟩)
  else
    (⟨false, none, none, some backend_error⟩,
     ⟨dictInsert active1 backup_id ⟨backup_id, backup_path, "failed"⟩,
      st.backup_metadata⟩)

/-- `BackupManager.get_backup_metadata`:
`self.backup_metadata.get(backup_id, {})`; `none` models the empty dict
returned for an absent id. -/
def get_backup_metadata (st : BackupState) (backup_id : String) : Option BackupInfo :=
  (st.backup_metadata.find? (fun e => e.1 == backup_id)).map Prod.snd

theorem keys_dictInsert {α : Type} (t : List (String × α)) (k k' : String) (v : α)
    (h : k' ∈ (dictInsert t k v).map Prod.fst) : k' = k ∨ k' ∈ t.map Prod.fst := by
  unfold dictInsert at h
  split at h
  · obtain ⟨e', he', hk'⟩ := List.mem_map.mp h
    obtain ⟨e, he, rfl⟩ := List.mem_map.mp he'
    by_cases hek : (e.1 == k) = true
    · rw [if_pos hek] at hk'
      exact Or.inl hk'.symm
    · rw [if_neg hek] at hk'
      exact Or.inr (List.mem_map.mpr ⟨e, he, hk'⟩)
  · rw [List.map_append] at h
    rcases List.mem_append.mp h with h | h
    · exact Or.inr h
    · exact Or.inl (by simpa using h)

theorem find?_dictInsert_fresh {α : Type} (t : List (String × α)) (k : String)
    (v : α) (k' : String) (hk : k' ≠ k) (hmem : k' ∉ t.map Prod.fst) :
    (dictInsert t k v).find? (fun e => e.1 == k') = none := by
  rw [List.find?_eq_none]
  intro e he
  simp only [beq_iff_eq]
  intro hek
  rcases keys_dictInsert t k k' v (List.mem_map.mpr ⟨e, he, hek⟩) with h | h
  · exact hk h
  · exact hmem h

/-- **C10**: a backup id is entered into the `backup_metadata` catalog iff
that backup completed successfully — on a successful creation the id maps to
the `completed` record, on a failed creation `backup_metadata` is unchanged
so `get_backup_metadata` on the fresh id returns the empty record, and an id
that was never used also yields the empty record (never an `in_progress` or
`failed` entry). -/
theorem C10_metadata_iff_completed (st : BackupState)
    (backup_id backup_path : String) (backend_ok : Bool) (backend_error : String)
    (hfresh : backup_id ∉ st.backup_metadata.map Prod.fst) :
    (backend_ok = true →
        (create_system_backup st backup_id backup_path backend_ok
            backend_error).1.success = true ∧
        get_backup_metadata (create_system_backup st backup_id backup_path
            backend_ok backend_error).2 backup_id
          = some ⟨backup_id, backup_path, "completed"⟩) ∧
    (backend_ok = false →
        (create_system_backup st backup_id backup_path backend_ok
            backend_error).1.success = false ∧
        (create_system_backup st backup_id backup_path backend_ok
            backend_error).2.backup_metadata = st.backup_metadata ∧
        get_backup_metadata (create_system_backup st backup_id backup_path
            backend_ok backend_error).2 backup_id = none) ∧
    (∀ id', id' ∉ st.backup_metadata.map Prod.fst → id' ≠ backup_id →
        get_backup_metadata (create_system_backup st backup_id backup_path
            backend_ok backend_error).2 id' = none) := by
  refine ⟨fun hok => ?_, fun hko => ?_, fun id' hid' hne => ?_⟩
  · subst hok
    refine ⟨rfl, ?_⟩
    simp only [create_system_backup, get_backup_metadata, if_pos]
    rw [find?_dictInsert]
    rfl
  · subst hko
    refine ⟨rfl, rfl, ?_⟩
    simp only [create_system_backup, get_backup_metadata]
    rw [List.find?_eq_none.mpr]
    · rfl
    · intro e he
      simp only [beq_iff_eq]
      intro hek
      exact hfresh (List.mem_map.mpr ⟨e, he, hek⟩)
  · cases backend_ok
    · simp only [create_system_backup, get_backup_metadata, Bool.false_eq_true,
        if_neg]
      rw [List.find?_eq_none.mpr]
      · rfl
      · intro e he
        simp only [beq_iff_eq]
        intro hek
        exact hid' (List.mem_map.mpr ⟨e, he, hek⟩)
    · simp only [create_system_backup, get_backup_metadata, if_pos]
      rw [find?_dictInsert_fresh st.backup_metadata backup_id _ id' hne hid']
      rfl

/-- Witness for C10: on an empty catalog, a failed creation of id `b1`
leaves its metadata empty, a successful creation of `b1` enters the
completed record, and the never-used id `b2` stays absent. -/
theorem C10_metadata_iff_completed_witness :
    (create_system_backup ⟨[], []⟩ "b1" "/tmp/b" false "disk full").1.success
        = false ∧
    get_backup_metadata (create_system_backup ⟨[], []⟩ "b1" "/tmp/b" false
        "disk full").2 "b1" = none ∧
    get_backup_metadata (create_system_backup ⟨[], []⟩ "b1" "/tmp/b" true "").2 "b1"
        = some ⟨"b1", "/tmp/b", "completed"⟩ ∧
    get_backup_metadata (create_system_backup ⟨[], []⟩ "b1" "/tmp/b" true "").2 "b2"
        = none := by
  have hfail := (C10_metadata_iff_completed ⟨[], []⟩ "b1" "/tmp/b" false
      "disk full" (by simp)).2.1 rfl
  have hok := (C10_metadata_iff_completed ⟨[], []⟩ "b1" "/tmp/b" true ""
      (by simp)).1 rfl
  have hother := (C10_metadata_iff_completed ⟨[], []⟩ "b1" "/tmp/b" true ""
      (by simp)).2.2 "b2" (by simp) (by decide)
  exact ⟨hfail.1, hfail.2.2, hok.2, hother⟩

end DETorrent
